import Mathlib

/-!
Shallow embedding of the doctor-server chat backend (`src/server.js`).

The server keeps two MongoDB collections (user profiles and day-bucketed chat
records) and exposes HTTP endpoints over them.  Time is modelled as an integer
count of milliseconds since the Unix epoch; civil (wall-clock) time in the
fixed reference timezone `Asia/Seoul` (UTC+9, no DST) is a proleptic Gregorian
date plus a millisecond-of-day, exactly the fields a JavaScript `Date`
exposes.  The store is a list of documents; `findOne`/`findOneAndUpdate`
operate on the first matching document, as the MongoDB driver does.
-/

namespace DoctorServer

/-! ## Calendar arithmetic (proleptic Gregorian, as used by JS `Date`/date-fns) -/

/-- Gregorian leap-year test. -/
def isLeapYear (y : Int) : Bool :=
  y % 4 == 0 && (y % 100 != 0 || y % 400 == 0)

/-- Number of days in a month of a given year. -/
def daysInMonth (y m : Int) : Int :=
  if m = 2 then (if isLeapYear y then 29 else 28)
  else if m = 4 ∨ m = 6 ∨ m = 9 ∨ m = 11 then 30
  else 31

/-- Day count since 1970-01-01 of a civil date (proleptic Gregorian).
Standard civil-calendar conversion; `/` and `%` on `Int` round toward
negative infinity for positive divisors, which is what the era shift needs. -/
def daysFromCivil (y m d : Int) : Int :=
  let yAdj := if m ≤ 2 then y - 1 else y
  let era := yAdj / 400
  let yoe := yAdj - era * 400
  let mp := (m + 9) % 12
  let doy := (153 * mp + 2) / 5 + d - 1
  let doe := yoe * 365 + yoe / 4 - yoe / 100 + doy
  era * 146097 + doe - 719468

/-- A civil (wall-clock) calendar date. -/
structure CivilDate where
  year : Int
  month : Int
  day : Int
deriving DecidableEq, Repr

/-- Civil date of a day count since 1970-01-01 (inverse of `daysFromCivil`). -/
def civilFromDays (z : Int) : CivilDate :=
  let z' := z + 719468
  let era := z' / 146097
  let doe := z' - era * 146097
  let yoe := (doe - doe / 1460 + doe / 36524 - doe / 146096) / 365
  let y := yoe + era * 400
  let doy := doe - (365 * yoe + yoe / 4 - yoe / 100)
  let mp := (5 * doy + 2) / 153
  let d := doy - (153 * mp + 2) / 5 + 1
  let m := if mp < 10 then mp + 3 else mp - 9
  ⟨if m ≤ 2 then y + 1 else y, m, d⟩

/-- A civil date together with a millisecond-of-day, i.e. the wall-clock
fields of a JS `Date` in some timezone. -/
structure CivilDateTime where
  date : CivilDate
  msOfDay : Int
deriving DecidableEq, Repr

def msPerDay : Int := 86400000

/-- Fixed offset of the reference timezone `Asia/Seoul` (UTC+9, no DST). -/
def seoulOffsetMs : Int := 9 * 3600000

/-- date-fns-tz `utcToZonedTime(t, 'Asia/Seoul')`: the Seoul wall-clock fields
of a UTC instant. -/
def utcToZonedTime (t : Int) : CivilDateTime :=
  let w := t + seoulOffsetMs
  let day := w / msPerDay
  ⟨civilFromDays day, w % msPerDay⟩

/-- date-fns-tz `zonedTimeToUtc(c, 'Asia/Seoul')`: the UTC instant whose Seoul
wall-clock fields are `c`. -/
def zonedTimeToUtc (c : CivilDateTime) : Int :=
  daysFromCivil c.date.year c.date.month c.date.day * msPerDay + c.msOfDay - seoulOffsetMs

/-- date-fns `startOfDay`: zero out the time-of-day fields. -/
def startOfDay (c : CivilDateTime) : CivilDateTime :=
  { c with msOfDay := 0 }

/-- date-fns `endOfDay`: set the time-of-day fields to 23:59:59.999. -/
def endOfDay (c : CivilDateTime) : CivilDateTime :=
  { c with msOfDay := 86399999 }

/-- date-fns `subMonths(c, 1)`: previous month, day-of-month clamped to the
target month's length, time-of-day preserved. -/
def subMonths1 (c : CivilDateTime) : CivilDateTime :=
  let y := if c.date.month = 1 then c.date.year - 1 else c.date.year
  let m := if c.date.month = 1 then 12 else c.date.month - 1
  ⟨⟨y, m, min c.date.day (daysInMonth y m)⟩, c.msOfDay⟩

/-! ## Parsing of `chat_date` request strings

`new Date(string)` on the date-only ISO form `YYYY-MM-DD` yields UTC midnight
of that date; a string that is not a well-formed in-range date yields an
Invalid Date, modelled as `none`.  Only this ISO subset of JS date parsing is
embedded; every claim touching parsing uses either this form or a string with
no digits at all. -/

/-- Split a character list on `'-'`. -/
def splitDash : List Char → List (List Char)
  | [] => [[]]
  | c :: rest =>
    if c = '-' then [] :: splitDash rest
    else match splitDash rest with
      | [] => [[c]]
      | g :: gs => (c :: g) :: gs

/-- Read a non-empty all-digit character list as a number. -/
def digitsToNat : List Char → Option Nat
  | [] => none
  | [c] => if c.isDigit then some (c.toNat - 48) else none
  | c :: rest =>
    if c.isDigit then
      match digitsToNat rest with
      | some n => some ((c.toNat - 48) * 10 ^ rest.length + n)
      | none => none
    else none

/-- JS `new Date(s).getTime()` on the `YYYY-MM-DD` subset: UTC midnight of the
date when well-formed and in range, `none` (Invalid Date) otherwise. -/
def jsParseDate (s : String) : Option Int :=
  match splitDash s.data with
  | [ys, ms, ds] =>
    if ys.length = 4 ∧ ms.length = 2 ∧ ds.length = 2 then
      match digitsToNat ys, digitsToNat ms, digitsToNat ds with
      | some y, some m, some d =>
        if 1 ≤ m ∧ m ≤ 12 ∧ 1 ≤ d ∧ (d : Int) ≤ daysInMonth y m then
          some (daysFromCivil y m d * msPerDay)
        else none
      | _, _, _ => none
    else none
  | _ => none

/-! ## Chat store -/

/-- A stored chat message (`chat_list` element).  A `date` of `none` stands
for an Invalid Date produced by `new Date(chat.date)` on an unparsable
supplied string. -/
structure ChatMessage where
  sender : String
  date : Option Int
  message : String
deriving DecidableEq, Repr

/-- A `chat_history` document: one record per (email, chat_date) day bucket. -/
structure ChatRecord where
  email : String
  chat_date : Int
  chat_list : List ChatMessage
  input_token : Int
  output_token : Int
deriving DecidableEq, Repr

/-- The `{email, chat_date}` equality filter used by the chat handlers. -/
def keyPred (e : String) (t : Int) (r : ChatRecord) : Bool :=
  r.email == e && r.chat_date == t

/-- `ChatHistory.findOne({email, chat_date})`: first matching document. -/
def findOne (store : List ChatRecord) (e : String) (t : Int) : Option ChatRecord :=
  store.find? (keyPred e t)

/-- Replace the first document matching (email, chat_date) with `r'`
(the write made by `findOneAndUpdate` with `new: true`). -/
def updateFirst (store : List ChatRecord) (e : String) (t : Int) (r' : ChatRecord) :
    List ChatRecord :=
  match store with
  | [] => []
  | r :: rest =>
    if keyPred e t r then r' :: rest
    else r :: updateFirst rest e t r'

/-! ## PUT /api/update-chat (Chat Accumulator) -/

/-- An incoming `chat_list` element: the `date` field is an optional string. -/
structure ChatMessageIn where
  sender : String
  date : Option String
  message : String
deriving DecidableEq, Repr

/-- Request body of PUT /api/update-chat.  `Option` marks fields that may be
absent from the JSON body. -/
structure UpdateChatReq where
  email : Option String
  chat_date : Option String
  chat_list : Option (List ChatMessageIn)
  input_token : Option Int
  output_token : Option Int
deriving DecidableEq, Repr

/-- JS truthiness of an optional string: absent and `""` are falsy. -/
def truthyStr : Option String → Bool
  | none => false
  | some s => !(s == "")

/-- JS truthiness of an optional number: absent and `0` are falsy. -/
def truthyInt : Option Int → Bool
  | none => false
  | some n => !(n == 0)

/-- Response of PUT /api/update-chat. `badRequest` is HTTP 400, `updated` 200
(carrying the `findOneAndUpdate` result, which is `null` when nothing
matched), `created` 201. -/
inductive UpdateChatResp where
  | badRequest (msg : String)
  | updated (result : Option ChatRecord)
  | created (result : ChatRecord)
deriving DecidableEq, Repr

/-- True exactly on the 400 responses. -/
def UpdateChatResp.isError400 : UpdateChatResp → Bool
  | .badRequest _ => true
  | _ => false

/-- Processing of one incoming message: `date: chat.date ? new Date(chat.date)
: new Date()` — a falsy (absent or empty) date becomes "now", otherwise the
string is parsed (possibly to Invalid Date). -/
def processMessage (now : Int) (m : ChatMessageIn) : ChatMessage :=
  { sender := m.sender
    message := m.message
    date := match m.date with
      | none => some now
      | some s => if s == "" then some now else jsParseDate s }

/-- The merge applied to an existing document: `$inc` on both token counters
and `$push { $each }` on `chat_list`. -/
def mergedRecord (r₀ : ChatRecord) (msgs : List ChatMessage) (i o : Int) : ChatRecord :=
  { r₀ with
    input_token := r₀.input_token + i
    output_token := r₀.output_token + o
    chat_list := r₀.chat_list ++ msgs }

/-- The write phase of the handler, given the result `found` of the earlier
`findOne` round trip.  When `found` matched, the handler issues
`findOneAndUpdate` applying `mergedRecord` — one atomic operation against
the store's current state.  When `found` was `none`, it issues
`newDoc.save()` — an unconditional insert. -/
def updateChatWrite (store : List ChatRecord) (found : Option ChatRecord)
    (e : String) (t : Int) (msgs : List ChatMessage) (i o : Int) :
    UpdateChatResp × List ChatRecord :=
  match found with
  | some _ =>
    match findOne store e t with
    | some r0 =>
      let r' : ChatRecord := mergedRecord r0 msgs i o
      (.updated (some r'), updateFirst store e t r')
    | none => (.updated none, store)
  | none =>
    let r : ChatRecord := ⟨e, t, msgs, i, o⟩
    (.created r, store ++ [r])

/-- PUT /api/update-chat: validate the body, parse `chat_date`, then perform
the find round trip followed by the write round trip (`updateChatWrite`).
The two store accesses are separate request-response round trips in the
source: `findOne` first, and only then either `findOneAndUpdate` or
`save`. -/
def updateChat (now : Int) (store : List ChatRecord) (req : UpdateChatReq) :
    UpdateChatResp × List ChatRecord :=
  if !(truthyStr req.email && truthyStr req.chat_date && req.chat_list.isSome &&
       truthyInt req.input_token && truthyInt req.output_token) then
    (.badRequest "Invalid request body", store)
  else
    match jsParseDate (req.chat_date.getD "") with
    | none => (.badRequest "Invalid chat_date format", store)
    | some t =>
      let e := req.email.getD ""
      let msgs := (req.chat_list.getD []).map (processMessage now)
      let i := req.input_token.getD 0
      let o := req.output_token.getD 0
      updateChatWrite store (findOne store e t) e t msgs i o

/-! ## User profiles: POST /api/regist_user_info and GET /api/check-license -/

/-- A `user_info` document.  `license_number` is `none` when the field is
absent or `null` on the stored document. -/
structure UserProfile where
  email : String
  user_name : String
  license_number : Option String
deriving DecidableEq, Repr

/-- `UserInfo.findOne({email})`: first matching profile. -/
def dbFind (db : List UserProfile) (e : String) : Option UserProfile :=
  db.find? (fun u => u.email == e)

/-- Replace the first profile with the given email. -/
def replaceProfileFirst (db : List UserProfile) (e : String) (u' : UserProfile) :
    List UserProfile :=
  match db with
  | [] => []
  | u :: rest =>
    if u.email == e then u' :: rest
    else u :: replaceProfileFirst rest e u'

/-- A document as returned by a Mongoose query such as `findOneAndUpdate`. -/
structure HydratedDoc where
  profile : UserProfile
deriving DecidableEq, Repr

/-- Mongoose semantics of the `isNew` flag: a document hydrated from a query
result is never marked new — `findOneAndUpdate` returns `isNew = false` even
when `upsert: true` just inserted the document (detecting an insert requires
`rawResult`, which the source does not use). -/
def HydratedDoc.wasNew (_ : HydratedDoc) : Bool := false

/-- `UserInfo.findOneAndUpdate({email}, {user_name, license_number},
{new: true, upsert: true, setDefaultsOnInsert: true})`: update the first
matching profile or insert a fresh one, returning the post-image. -/
def findOneAndUpdateUser (db : List UserProfile) (e n lic : String) :
    HydratedDoc × List UserProfile :=
  match dbFind db e with
  | some u0 =>
    let u' : UserProfile := { u0 with user_name := n, license_number := some lic }
    (⟨u'⟩, replaceProfileFirst db e u')
  | none =>
    let u' : UserProfile := ⟨e, n, some lic⟩
    (⟨u'⟩, db ++ [u'])

/-- Response of POST /api/regist_user_info. `badRequest` is HTTP 400,
`registered` 201 ("User registered successfully"), `updatedInfo` 200
("User information updated successfully"). -/
inductive RegistResp where
  | badRequest (msg : String)
  | registered (u : UserProfile)
  | updatedInfo (u : UserProfile)
deriving DecidableEq, Repr

/-- Request body of POST /api/regist_user_info; destructured with
`license_number = ""` as default. -/
structure RegistReq where
  email : Option String
  user_name : Option String
  license_number : Option String
deriving DecidableEq, Repr

/-- POST /api/regist_user_info: validate, upsert by email, then branch on the
returned document's `isNew` flag to pick 201 vs 200. -/
def registUserInfo (db : List UserProfile) (req : RegistReq) :
    RegistResp × List UserProfile :=
  if !(truthyStr req.email && truthyStr req.user_name) then
    (.badRequest "Email and user_name are required", db)
  else
    let e := req.email.getD ""
    let n := req.user_name.getD ""
    let lic := req.license_number.getD ""
    let (doc, db') := findOneAndUpdateUser db e n lic
    if doc.wasNew then (.registered doc.profile, db')
    else (.updatedInfo doc.profile, db')

/-- GET /api/check-license: `user ? user.license_number || "" : ""` — the
response's `license_number` field is always a string, by construction of this
expression (a profile whose stored license is absent, `null` or `""` falls to
the `|| ""` default). -/
def checkLicense (db : List UserProfile) (e : String) : String :=
  match dbFind db e with
  | none => ""
  | some u =>
    match u.license_number with
    | none => ""
    | some s => if s == "" then "" else s

/-! ## GET /api/get-chat-histories (Report Query Engine)

The handler resolves the date window, builds a filter, and issues three store
queries over it (page fetch, count, token aggregation).  `now` is the instant
`new Date()` at the start of the handler; `nowLocalMsOfDay` is the
time-of-day part of that same instant in the server process's local timezone:
date-fns `parse(s, 'yyyy-MM-dd', new Date())` fills the fields missing from
the format string (hours, minutes, seconds, milliseconds) from the reference
date, so a supplied `startDate`/`endDate` string turns into that civil date
carrying the current local time-of-day, which `zonedTimeToUtc` then reads as
Seoul wall-clock fields. -/

/-- Effective UTC [start, end] window of the report query, from the supplied
(already format-parsed) civil dates or the one-month/"now" defaults. -/
def resolveWindow (now nowLocalMsOfDay : Int)
    (startD endD : Option CivilDate) : Int × Int :=
  let koreaTime := utcToZonedTime now
  let s := match startD with
    | some d => zonedTimeToUtc ⟨d, nowLocalMsOfDay⟩
    | none => zonedTimeToUtc (startOfDay (subMonths1 koreaTime))
  let e := match endD with
    | some d => zonedTimeToUtc ⟨d, nowLocalMsOfDay⟩
    | none => zonedTimeToUtc (endOfDay koreaTime)
  (s, e)

/-- Query parameters of GET /api/get-chat-histories, after the query-string
stage: `page`/`pageSize` coerced to integers with defaults 1 and 10,
`startDate`/`endDate` already run through the `yyyy-MM-dd` format parse,
`excludeAdminData` true exactly when the parameter arrived as the string
`'true'`, and `adminEmails` a `some` list exactly when the parameter arrived
as an actual array. -/
structure QueryParams where
  page : Nat := 1
  pageSize : Nat := 10
  email : Option String := none
  startDate : Option CivilDate := none
  endDate : Option CivilDate := none
  excludeAdminData : Bool := false
  adminEmails : Option (List String) := none
deriving DecidableEq, Repr

/-- The Mongo filter built by the handler.  Note the source's overwrite: when
the admin-exclusion branch fires, `query.email = { $nin: adminEmails }`
replaces any earlier exact-email condition. -/
def queryFilter (now nowLocalMsOfDay : Int) (p : QueryParams)
    (r : ChatRecord) : Bool :=
  let w := resolveWindow now nowLocalMsOfDay p.startDate p.endDate
  let excl : Option (List String) :=
    if p.excludeAdminData then p.adminEmails else none
  (decide (w.1 ≤ r.chat_date) && decide (r.chat_date ≤ w.2)) &&
  (match excl with
   | some l => !(l.contains r.email)
   | none =>
     match p.email with
     | some e => r.email == e
     | none => true)

/-- Insert into a list kept sorted by `chat_date` descending. -/
def insertByDateDesc (r : ChatRecord) : List ChatRecord → List ChatRecord
  | [] => [r]
  | x :: xs =>
    if x.chat_date ≤ r.chat_date then r :: x :: xs
    else x :: insertByDateDesc r xs

/-- `.sort({chat_date: -1})`: sort by `chat_date` descending. -/
def sortByDateDesc : List ChatRecord → List ChatRecord
  | [] => []
  | x :: xs => insertByDateDesc x (sortByDateDesc xs)

/-- One row of the response page: the projection
`email chat_date input_token output_token`, with `chat_date` re-rendered in
the Seoul civil timezone (the source formats it as an ISO string with
offset; the civil fields are kept here). -/
structure ChatSummary where
  email : String
  chat_date : CivilDateTime
  input_token : Int
  output_token : Int
deriving DecidableEq, Repr

/-- Response body of GET /api/get-chat-histories.  `window` is the resolved
UTC [start, end] pair (the source echoes it formatted as Seoul civil
dates). -/
structure QueryResponse where
  data : List ChatSummary
  currentPage : Nat
  totalPages : Nat
  totalCount : Nat
  totalInputTokens : Int
  totalOutputTokens : Int
  window : Int × Int
deriving DecidableEq, Repr

/-- `Math.ceil(a / b)` on non-negative integers with `b > 0`. -/
def jsCeilDiv (a b : Nat) : Nat := (a + b - 1) / b

/-- GET /api/get-chat-histories: resolve the window, filter, fetch the sorted
page with skip/limit, and independently count and sum token totals over the
whole filtered set (the `countDocuments` and `$match`/`$group` aggregation
round trips; an empty aggregation result is read back as totals of 0 via
`totalTokens[0]?.totalInputTokens || 0`). -/
def queryChatHistories (now nowLocalMsOfDay : Int) (store : List ChatRecord)
    (p : QueryParams) : QueryResponse :=
  let w := resolveWindow now nowLocalMsOfDay p.startDate p.endDate
  let matching := store.filter (queryFilter now nowLocalMsOfDay p)
  let sorted := sortByDateDesc matching
  let skip := (p.page - 1) * p.pageSize
  let pageData := (sorted.drop skip).take p.pageSize
  let totalCount := matching.length
  { data := pageData.map (fun r =>
      ⟨r.email, utcToZonedTime r.chat_date, r.input_token, r.output_token⟩)
    currentPage := p.page
    totalPages := jsCeilDiv totalCount p.pageSize
    totalCount := totalCount
    totalInputTokens := (matching.map (fun r => r.input_token)).sum
    totalOutputTokens := (matching.map (fun r => r.output_token)).sum
    window := w }

/-! ## Spec-side date descriptions (for the window claims)

These definitions follow the specification's words, to be compared with the
handler's computations: the civil "today" in the reference timezone, the UTC
instants for the start and end of a civil day, and the day one calendar month
before a given day. -/

/-- Today's civil date in the reference timezone, for a given instant. -/
def seoulCivilToday (now : Int) : CivilDate :=
  (utcToZonedTime now).date

/-- UTC instant for the start of a civil day in the reference timezone. -/
def specDayStartUtc (d : CivilDate) : Int :=
  zonedTimeToUtc ⟨d, 0⟩

/-- UTC instant for the end of a civil day in the reference timezone
(23:59:59.999, inclusive of the full day). -/
def specDayEndUtc (d : CivilDate) : Int :=
  zonedTimeToUtc ⟨d, 86399999⟩

/-- The day one calendar month before a given civil day (day-of-month kept,
clamped to the length of the earlier month). -/
def specOneMonthBefore (d : CivilDate) : CivilDate :=
  let y := if d.month = 1 then d.year - 1 else d.year
  let m := if d.month = 1 then 12 else d.month - 1
  ⟨y, m, min d.day (daysInMonth y m)⟩

/-- All stored records for a given (email, chat_date) pair. -/
def recordsFor (store : List ChatRecord) (e : String) (t : Int) : List ChatRecord :=
  store.filter (keyPred e t)

/-- One interleaved schedule of two concurrent first appends for the same
(email, chat_date) pair against an initially empty store, as the cooperative
scheduling model admits: each handler suspends after its `findOne` round
trip, so both finds run against the empty store before either write phase
runs.  The result is the store after both write phases. -/
def interleavedFirstAppends (e : String) (t : Int)
    (msgsA msgsB : List ChatMessage) (iA oA iB oB : Int) : List ChatRecord :=
  let fA := findOne [] e t
  let fB := findOne [] e t
  let s₁ := (updateChatWrite [] fA e t msgsA iA oA).2
  (updateChatWrite s₁ fB e t msgsB iB oB).2

/-! ## Helper lemmas -/

theorem truthyStr_some {s : String} (h : s ≠ "") : truthyStr (some s) = true := by
  simp [truthyStr, h]

theorem truthyInt_some {n : Int} (h : n ≠ 0) : truthyInt (some n) = true := by
  simp [truthyInt, h]

theorem recordsFor_eq_nil {s : List ChatRecord} {e : String} {t : Int}
    (h : findOne s e t = none) : recordsFor s e t = [] := by
  rw [findOne, List.find?_eq_none] at h
  rw [recordsFor, List.filter_eq_nil_iff]
  exact h

theorem findOne_append {s₁ s₂ : List ChatRecord} {e : String} {t : Int} :
    findOne (s₁ ++ s₂) e t = (findOne s₁ e t).or (findOne s₂ e t) := by
  simp [findOne, List.find?_append]

theorem updateFirst_append_of_none {s : List ChatRecord} {e : String} {t : Int}
    {l : List ChatRecord} {r' : ChatRecord} (h : findOne s e t = none) :
    updateFirst (s ++ l) e t r' = s ++ updateFirst l e t r' := by
  induction s with
  | nil => rfl
  | cons r rest ih =>
    rcases hpred : keyPred e t r with _ | _
    · have h2 : findOne rest e t = none := by
        rw [findOne] at h ⊢
        rwa [@List.find?_cons_of_neg _ (keyPred e t) r rest (by simp [hpred])] at h
      rw [List.cons_append, updateFirst, hpred, ih h2]
      simp
    · rw [findOne, @List.find?_cons_of_pos _ (keyPred e t) r rest hpred] at h
      cases h

theorem findOne_updateFirst {s : List ChatRecord} {e : String} {t : Int}
    {r₀ r' : ChatRecord} (h : findOne s e t = some r₀)
    (h' : keyPred e t r' = true) :
    findOne (updateFirst s e t r') e t = some r' := by
  induction s with
  | nil => simp [findOne] at h
  | cons r rest ih =>
    rcases hpred : keyPred e t r with _ | _
    · have h2 : findOne rest e t = some r₀ := by
        rw [findOne] at h ⊢
        rwa [@List.find?_cons_of_neg _ (keyPred e t) r rest (by simp [hpred])] at h
      rw [updateFirst, hpred]
      simp only [Bool.false_eq_true, if_false]
      rw [findOne, @List.find?_cons_of_neg _ (keyPred e t) r (updateFirst rest e t r') (by simp [hpred])]
      exact ih h2
    · rw [updateFirst, hpred]
      simp only [if_true]
      rw [findOne, @List.find?_cons_of_pos _ (keyPred e t) r' rest h']

/-- The accepted-create path of the handler: valid body, parsable date, no
existing record — a new document with exactly the supplied data is saved. -/
theorem updateChat_of_found_none {now : Int} {s : List ChatRecord}
    {e ds : String} {L : List ChatMessageIn} {i o t : Int}
    (he : e ≠ "") (hds : ds ≠ "") (hi : i ≠ 0) (ho : o ≠ 0)
    (ht : jsParseDate ds = some t) (h₀ : findOne s e t = none) :
    updateChat now s ⟨some e, some ds, some L, some i, some o⟩ =
      (.created ⟨e, t, L.map (processMessage now), i, o⟩,
        s ++ [⟨e, t, L.map (processMessage now), i, o⟩]) := by
  rw [updateChat]
  simp only [truthyStr_some he, truthyStr_some hds, truthyInt_some hi, truthyInt_some ho,
    Option.isSome_some, Bool.and_self, Bool.and_true, Bool.true_and, Bool.not_true,
    Bool.false_eq_true, if_false, Option.getD_some, ht, h₀, updateChatWrite]

/-- The accepted-update path of the handler: valid body, parsable date,
existing record — `$inc` on both counters and `$push { $each }` on the
message list, applied to the first matching document. -/
theorem updateChat_of_found_some {now : Int} {s : List ChatRecord}
    {e ds : String} {L : List ChatMessageIn} {i o t : Int} {r₀ : ChatRecord}
    (he : e ≠ "") (hds : ds ≠ "") (hi : i ≠ 0) (ho : o ≠ 0)
    (ht : jsParseDate ds = some t) (h₀ : findOne s e t = some r₀) :
    updateChat now s ⟨some e, some ds, some L, some i, some o⟩ =
      (.updated (some (mergedRecord r₀ (L.map (processMessage now)) i o)),
        updateFirst s e t (mergedRecord r₀ (L.map (processMessage now)) i o)) := by
  rw [updateChat]
  simp only [truthyStr_some he, truthyStr_some hds, truthyInt_some hi, truthyInt_some ho,
    Option.isSome_some, Bool.and_self, Bool.and_true, Bool.true_and, Bool.not_true,
    Bool.false_eq_true, if_false, Option.getD_some, ht, h₀, updateChatWrite]

/-! ## Claim theorems -/

/-- C2: the find-or-create-and-merge step of PUT /api/update-chat is not one
atomic store operation — the handler issues a `findOne` round trip and then a
separate write (`save` when the find saw nothing).  Under the interleaving in
which two concurrent appends for the same (email, chat_date) both run their
find before either write, both takes the create path and the store ends up
with two ChatRecords for the pair, splitting the accumulation, instead of the
single merged record one atomic upsert would guarantee. -/
theorem c2_find_then_write_loses_atomicity :
    interleavedFirstAppends "doctor@example.com" 1704153600000
        [⟨"user", some 11, "hi"⟩] [⟨"user", some 12, "yo"⟩] 5 3 2 1
      = [⟨"doctor@example.com", 1704153600000, [⟨"user", some 11, "hi"⟩], 5, 3⟩,
         ⟨"doctor@example.com", 1704153600000, [⟨"user", some 12, "yo"⟩], 2, 1⟩]
    ∧ (recordsFor
        (interleavedFirstAppends "doctor@example.com" 1704153600000
          [⟨"user", some 11, "hi"⟩] [⟨"user", some 12, "yo"⟩] 5 3 2 1)
        "doctor@example.com" 1704153600000).length = 2 := by
  decide

/-- C3 (counterexample): the validation accepts any non-zero token delta, so
an accepted update carrying negative `input_token`/`output_token` decreases
the counters (5 drops to 2), and an accepted create stores a negative
counter — refuting non-negativity and monotonic non-decrease as stated. -/
theorem c3_negative_delta_accepted :
    (updateChat 7 [⟨"u@x", 0, [], 5, 5⟩]
        ⟨some "u@x", some "1970-01-01", some [], some (-3), some (-2)⟩).2
      = [⟨"u@x", 0, [], 2, 3⟩]
    ∧ (updateChat 7 ([] : List ChatRecord)
        ⟨some "u@x", some "1970-01-01", some [], some (-3), some (-2)⟩).2
      = [⟨"u@x", 0, [], -3, -2⟩]
    ∧ ((2 : Int) < 5 ∧ (-3 : Int) < 0) := by
  decide

/-- C4: with `now` at 2024-01-10T00:00:00Z (server local timezone UTC, so the
reference time-of-day carried by the format parse is 0) and a supplied
`endDate` of 2024-01-15, the window's upper bound is not the end of that
civil day in the reference timezone: a record written at noon Seoul time on
2024-01-15 lies inside the civil day but outside the window. -/
theorem c4_supplied_end_excludes_day :
    (resolveWindow 1704844800000 0 none (some ⟨2024, 1, 15⟩)).2
        ≠ specDayEndUtc ⟨2024, 1, 15⟩
    ∧ specDayStartUtc ⟨2024, 1, 15⟩ ≤ zonedTimeToUtc ⟨⟨2024, 1, 15⟩, 43200000⟩
    ∧ zonedTimeToUtc ⟨⟨2024, 1, 15⟩, 43200000⟩ ≤ specDayEndUtc ⟨2024, 1, 15⟩
    ∧ (resolveWindow 1704844800000 0 none (some ⟨2024, 1, 15⟩)).1
        ≤ zonedTimeToUtc ⟨⟨2024, 1, 15⟩, 43200000⟩
    ∧ ¬ (zonedTimeToUtc ⟨⟨2024, 1, 15⟩, 43200000⟩
        ≤ (resolveWindow 1704844800000 0 none (some ⟨2024, 1, 15⟩)).2) := by
  decide

/-- C5: with both `startDate` and `endDate` omitted, the effective window is
exactly [start of the day one calendar month before today, end of today],
days taken in the reference timezone and converted to UTC instants. -/
theorem c5_default_window (now nowLocalMsOfDay : Int) :
    resolveWindow now nowLocalMsOfDay none none
      = (specDayStartUtc (specOneMonthBefore (seoulCivilToday now)),
         specDayEndUtc (seoulCivilToday now)) := rfl

/-- C7: a request whose `input_token` or `output_token` is absent, zero, or
otherwise not truthy is rejected with the 400 "Invalid request body" response
and the store is left unchanged — no record is created or modified. -/
theorem c7_zero_token_rejected (now : Int) (store : List ChatRecord)
    (req : UpdateChatReq)
    (h : truthyInt req.input_token = false ∨ truthyInt req.output_token = false) :
    updateChat now store req = (.badRequest "Invalid request body", store) := by
  rw [updateChat]
  rcases h with h | h <;> simp [h]

/-- C8: a request whose `chat_date` does not parse to a valid instant is
answered with a 400 validation error and the store is left unchanged; the
parse check precedes every store access in the handler. -/
theorem c8_unparsable_date_rejected (now : Int) (store : List ChatRecord)
    (req : UpdateChatReq)
    (h : jsParseDate (req.chat_date.getD "") = none) :
    ((updateChat now store req).1).isError400 = true
    ∧ (updateChat now store req).2 = store := by
  rw [updateChat]
  rcases hv : (truthyStr req.email && truthyStr req.chat_date && req.chat_list.isSome &&
      truthyInt req.input_token && truthyInt req.output_token) with _ | _
  · simp [UpdateChatResp.isError400]
  · simp [hv, h, UpdateChatResp.isError400]

/-- C9: registering a fresh email creates the profile but still answers with
the 200 "User information updated successfully" response — the source's 201
branch tests `isNew` on a query-returned document, which is never marked new,
so a newly created profile is not reported with 201 as claimed. -/
theorem c9_fresh_email_answers_200 :
    registUserInfo [] ⟨some "new@example.com", some "Alice", none⟩
      = (.updatedInfo ⟨"new@example.com", "Alice", some ""⟩,
         [⟨"new@example.com", "Alice", some ""⟩]) := by
  decide

/-- C10: GET /api/check-license answers with the empty string not only when
no profile exists for the email, but also when the stored profile's
`license_number` is absent, `null`, or the empty string; the response field
is a string by construction of `checkLicense`, never `null` or omitted. -/
theorem c10_license_empty_string (db : List UserProfile) (e : String)
    (h : dbFind db e = none
      ∨ ∃ u, dbFind db e = some u
          ∧ (u.license_number = none ∨ u.license_number = some "")) :
    checkLicense db e = "" := by
  rw [checkLicense]
  rcases h with h | ⟨u, hu, hl | hl⟩
  · simp [h]
  · simp [hu, hl]
  · simp [hu, hl]

/-- C1: two successive accepted appends for the same (email, day) pair — the
first with counts (i₁, o₁) and message list L₁ against a store holding no
record for the pair, the second with (i₂, o₂) and L₂ — leave exactly one
ChatRecord for the pair, with `input_token = i₁ + i₂`,
`output_token = o₁ + o₂`, and the two processed message batches appended in
order; the first batch and counts are preserved, never overwritten. -/
theorem c1_two_appends_accumulate (now₁ now₂ : Int) (s₀ : List ChatRecord)
    (e ds : String) (L₁ L₂ : List ChatMessageIn) (i₁ o₁ i₂ o₂ t : Int)
    (he : e ≠ "") (hds : ds ≠ "")
    (hi₁ : i₁ ≠ 0) (ho₁ : o₁ ≠ 0) (hi₂ : i₂ ≠ 0) (ho₂ : o₂ ≠ 0)
    (ht : jsParseDate ds = some t) (h₀ : findOne s₀ e t = none) :
    recordsFor (updateChat now₂
        (updateChat now₁ s₀ ⟨some e, some ds, some L₁, some i₁, some o₁⟩).2
        ⟨some e, some ds, some L₂, some i₂, some o₂⟩).2 e t
      = [⟨e, t, L₁.map (processMessage now₁) ++ L₂.map (processMessage now₂),
          i₁ + i₂, o₁ + o₂⟩] := by
  have h1 := @updateChat_of_found_none now₁ s₀ e ds L₁ i₁ o₁ t
    he hds hi₁ ho₁ ht h₀
  rw [h1]
  have hkey : keyPred e t ⟨e, t, L₁.map (processMessage now₁), i₁, o₁⟩ = true := by
    simp [keyPred]
  have hfind : findOne (s₀ ++ [⟨e, t, L₁.map (processMessage now₁), i₁, o₁⟩]) e t
      = some ⟨e, t, L₁.map (processMessage now₁), i₁, o₁⟩ := by
    rw [findOne_append, h₀]
    rw [findOne, @List.find?_cons_of_pos _ (keyPred e t) _ [] hkey]
    rfl
  have h2 := @updateChat_of_found_some now₂
    (s₀ ++ [⟨e, t, L₁.map (processMessage now₁), i₁, o₁⟩]) e ds L₂ i₂ o₂ t
    ⟨e, t, L₁.map (processMessage now₁), i₁, o₁⟩ he hds hi₂ ho₂ ht hfind
  rw [h2, updateFirst_append_of_none h₀]
  rw [show updateFirst [⟨e, t, L₁.map (processMessage now₁), i₁, o₁⟩] e t
        (mergedRecord ⟨e, t, L₁.map (processMessage now₁), i₁, o₁⟩
          (L₂.map (processMessage now₂)) i₂ o₂)
      = [mergedRecord ⟨e, t, L₁.map (processMessage now₁), i₁, o₁⟩
          (L₂.map (processMessage now₂)) i₂ o₂] from by
    rw [updateFirst, hkey]
    simp]
  rw [recordsFor, List.filter_append, ← recordsFor, recordsFor_eq_nil h₀]
  simp [mergedRecord, keyPred]

/-- C3 (amended): provided the token deltas of an accepted update are
positive — the validation rejects zero and absent counts but lets negative
ones through, so positivity is the extra condition the counterexample forces
— an existing record's counters never decrease and stay non-negative across
the update, and its `chat_list` only grows by appending the new batch at the
end, never losing or reordering prior messages; an accepted create stores
non-negative counters. -/
theorem c3_accepted_updates_monotone (now : Int) (s : List ChatRecord)
    (e ds : String) (L : List ChatMessageIn) (i o t : Int)
    (he : e ≠ "") (hds : ds ≠ "") (hi : 0 < i) (ho : 0 < o)
    (ht : jsParseDate ds = some t) :
    (∀ r₀, findOne s e t = some r₀ →
      updateChat now s ⟨some e, some ds, some L, some i, some o⟩
        = (.updated (some (mergedRecord r₀ (L.map (processMessage now)) i o)),
           updateFirst s e t (mergedRecord r₀ (L.map (processMessage now)) i o))
      ∧ (mergedRecord r₀ (L.map (processMessage now)) i o).chat_list
          = r₀.chat_list ++ L.map (processMessage now)
      ∧ r₀.input_token ≤ (mergedRecord r₀ (L.map (processMessage now)) i o).input_token
      ∧ r₀.output_token ≤ (mergedRecord r₀ (L.map (processMessage now)) i o).output_token
      ∧ (0 ≤ r₀.input_token →
          0 ≤ (mergedRecord r₀ (L.map (processMessage now)) i o).input_token)
      ∧ (0 ≤ r₀.output_token →
          0 ≤ (mergedRecord r₀ (L.map (processMessage now)) i o).output_token)
      ∧ findOne (updateFirst s e t (mergedRecord r₀ (L.map (processMessage now)) i o)) e t
          = some (mergedRecord r₀ (L.map (processMessage now)) i o))
    ∧ (findOne s e t = none →
      updateChat now s ⟨some e, some ds, some L, some i, some o⟩
        = (.created ⟨e, t, L.map (processMessage now), i, o⟩,
           s ++ [⟨e, t, L.map (processMessage now), i, o⟩])
      ∧ 0 ≤ i ∧ 0 ≤ o) := by
  constructor
  · intro r₀ h₀
    have hkey : keyPred e t (mergedRecord r₀ (L.map (processMessage now)) i o) = true := by
      have hk₀ : keyPred e t r₀ = true := List.find?_some h₀
      simpa [keyPred, mergedRecord] using hk₀
    refine ⟨@updateChat_of_found_some now s e ds L i o t r₀
        he hds (by omega) (by omega) ht h₀,
      rfl, by simp [mergedRecord]; omega, by simp [mergedRecord]; omega,
      by simp [mergedRecord]; omega, by simp [mergedRecord]; omega,
      findOne_updateFirst h₀ hkey⟩
  · intro h₀
    exact ⟨@updateChat_of_found_none now s e ds L i o t
        he hds (by omega) (by omega) ht h₀, by omega, by omega⟩

/-- Strict upper bound used for the ceiling characterization: dividing and
rounding up covers the dividend. -/
theorem div_succ_mul_self_bound (a b : Nat) (hb : 0 < b) :
    a < (a / b + 1) * b := by
  have hmod : a % b < b := Nat.mod_lt _ hb
  have hdm := Nat.div_add_mod a b
  calc a = b * (a / b) + a % b := hdm.symm
    _ < b * (a / b) + b := Nat.add_lt_add_left hmod _
    _ = (a / b + 1) * b := by ring

/-- `jsCeilDiv c ps` is the exact ceiling of `c / ps`: the covered range
`jsCeilDiv c ps * ps` reaches `c` but overshoots by less than a page. -/
theorem jsCeilDiv_bounds (c ps : Nat) (hp : 0 < ps) :
    c ≤ jsCeilDiv c ps * ps ∧ jsCeilDiv c ps * ps < c + ps := by
  constructor
  · rcases Nat.eq_zero_or_pos c with hc | hc
    · simp [hc]
    · have hq : jsCeilDiv c ps = (c - 1) / ps + 1 := by
        rw [jsCeilDiv, show c + ps - 1 = (c - 1) + ps by omega, Nat.add_div_right _ hp]
      rw [hq]
      have hlt := div_succ_mul_self_bound (c - 1) ps hp
      exact Nat.le_of_pred_lt hlt
  · exact lt_of_le_of_lt (Nat.div_mul_le_self _ _) (by omega)

/-- C6: the report response's `totalCount` counts the whole filtered set,
`totalInputTokens`/`totalOutputTokens` sum the token counters over the whole
filtered set (not just the returned page), `totalPages` is the ceiling of
`totalCount / pageSize` (stated both as Mathlib's ceiling division and by the
tight multiplicative characterization), and an empty filtered set yields an
empty page with all totals zero rather than an error — the response type has
no error variant on this path. -/
theorem c6_totals_and_pagination (now ms : Int) (store : List ChatRecord)
    (p : QueryParams) (hp : 0 < p.pageSize) :
    (queryChatHistories now ms store p).totalCount
        = (store.filter (queryFilter now ms p)).length
    ∧ (queryChatHistories now ms store p).totalInputTokens
        = ((store.filter (queryFilter now ms p)).map (fun r => r.input_token)).sum
    ∧ (queryChatHistories now ms store p).totalOutputTokens
        = ((store.filter (queryFilter now ms p)).map (fun r => r.output_token)).sum
    ∧ (queryChatHistories now ms store p).totalPages
        = (queryChatHistories now ms store p).totalCount ⌈/⌉ p.pageSize
    ∧ (queryChatHistories now ms store p).totalCount
        ≤ (queryChatHistories now ms store p).totalPages * p.pageSize
    ∧ (queryChatHistories now ms store p).totalPages * p.pageSize
        < (queryChatHistories now ms store p).totalCount + p.pageSize
    ∧ (store.filter (queryFilter now ms p) = [] →
        (queryChatHistories now ms store p).data = []
        ∧ (queryChatHistories now ms store p).totalInputTokens = 0
        ∧ (queryChatHistories now ms store p).totalOutputTokens = 0
        ∧ (queryChatHistories now ms store p).totalCount = 0
        ∧ (queryChatHistories now ms store p).totalPages = 0) := by
  refine ⟨rfl, rfl, rfl, rfl,
    (jsCeilDiv_bounds _ _ hp).1, (jsCeilDiv_bounds _ _ hp).2, ?_⟩
  intro h
  have hpages : jsCeilDiv 0 p.pageSize = 0 := by
    rw [jsCeilDiv]
    exact Nat.div_eq_of_lt (by omega)
  refine ⟨?_, ?_, ?_, ?_, ?_⟩ <;>
    simp [queryChatHistories, h, sortByDateDesc, hpages]

/-! ## Witnesses -/

theorem c1_two_appends_accumulate_witness :
    recordsFor (updateChat 22
        (updateChat 11 []
          ⟨some "doc@example.com", some "2024-01-02",
            some [⟨"user", none, "m1"⟩], some 5, some 3⟩).2
        ⟨some "doc@example.com", some "2024-01-02",
          some [⟨"assistant", none, "m2"⟩], some 2, some 1⟩).2
        "doc@example.com" 1704153600000
      = [⟨"doc@example.com", 1704153600000,
          [⟨"user", some 11, "m1"⟩, ⟨"assistant", some 22, "m2"⟩], 7, 4⟩] :=
  c1_two_appends_accumulate 11 22 [] "doc@example.com" "2024-01-02"
    [⟨"user", none, "m1"⟩] [⟨"assistant", none, "m2"⟩] 5 3 2 1 1704153600000
    (by decide) (by decide) (by decide) (by decide) (by decide) (by decide)
    (by decide) rfl

theorem c3_accepted_updates_monotone_witness :
    updateChat 9 [⟨"u@x", 0, [], 5, 5⟩]
        ⟨some "u@x", some "1970-01-01", some [], some 2, some 1⟩
      = (.updated (some ⟨"u@x", 0, [], 7, 6⟩), [⟨"u@x", 0, [], 7, 6⟩]) :=
  ((c3_accepted_updates_monotone 9 [⟨"u@x", 0, [], 5, 5⟩] "u@x" "1970-01-01"
      [] 2 1 0 (by decide) (by decide) (by decide) (by decide) (by decide)).1
    ⟨"u@x", 0, [], 5, 5⟩ rfl).1

theorem c6_totals_and_pagination_witness :
    (queryChatHistories 0 0 [⟨"a@b.c", 0, [], 1, 2⟩] {}).totalCount
      = (([⟨"a@b.c", 0, [], 1, 2⟩] : List ChatRecord).filter (queryFilter 0 0 {})).length :=
  (c6_totals_and_pagination 0 0 [⟨"a@b.c", 0, [], 1, 2⟩] {} (by decide)).1

theorem c7_zero_token_rejected_witness :
    updateChat 0 []
        ⟨some "u@x", some "2024-01-02", some [], some 0, some 7⟩
      = (.badRequest "Invalid request body", []) :=
  c7_zero_token_rejected 0 []
    ⟨some "u@x", some "2024-01-02", some [], some 0, some 7⟩ (Or.inl rfl)

theorem c8_unparsable_date_rejected_witness :
    ((updateChat 0 [] ⟨some "u@x", some "not-a-date", some [], some 5, some 3⟩).1).isError400 = true
    ∧ (updateChat 0 [] ⟨some "u@x", some "not-a-date", some [], some 5, some 3⟩).2 = [] :=
  c8_unparsable_date_rejected 0 []
    ⟨some "u@x", some "not-a-date", some [], some 5, some 3⟩ (by decide)

theorem c10_license_empty_string_witness :
    checkLicense [⟨"a@b.c", "Ann", some ""⟩] "a@b.c" = "" :=
  c10_license_empty_string [⟨"a@b.c", "Ann", some ""⟩] "a@b.c"
    (Or.inr ⟨⟨"a@b.c", "Ann", some ""⟩, by decide, Or.inr rfl⟩)

end DoctorServer
